import Mathlib

/-!
Shallow embedding of the `gcloud_automation` administrative scripts.

The repository is a bundle of Python scripts that read company rows from a
BigQuery `companies` table, derive GCP project identifiers, and execute (or
dry-run) provisioning, deletion and authorization actions.  Pure string
transformations are translated to Lean functions on `List Char`; every call
that mutates the target system (spawning a shell command, issuing the BigQuery
UPDATE write-back, `update_dataset`, or a REST PATCH) is recorded explicitly
as an `Effect` value, so that "performs no mutating call" is the statement
that an effect trace is empty.  Reads (queries, GET requests, token refresh)
are modelled as inputs, not effects.  Python exceptions raised while reading
a row are modelled by the `Row.bad` constructor.
-/

namespace GP

/-- Python `s.replace(c, r)` where `c` is a single character and `r` a
replacement string: every occurrence of `c` is expanded to the list `r`. -/
def pyReplace (s : List Char) (c : Char) (r : List Char) : List Char :=
  (s.map (fun x => if x = c then r else [x])).flatten

/-- Characters kept by `re.sub(r'[^a-z0-9-]', '', ...)`
(source `proyects/gcloud_projects_V1.py` line 39). -/
def allowedChar (c : Char) : Bool :=
  decide (('a' ≤ c ∧ c ≤ 'z') ∨ ('0' ≤ c ∧ c ≤ '9') ∨ c = '-')

/-- Python `s.strip(c)`: removes leading and trailing occurrences of `c`. -/
def pyStrip (s : List Char) (c : Char) : List Char :=
  ((s.dropWhile (fun x => x == c)).reverse.dropWhile (fun x => x == c)).reverse

/-- Python slice `s[:m]` where `m` may be negative (negative indices count
from the end, clamped at zero). -/
def pySliceTo (s : List Char) (m : Int) : List Char :=
  if 0 ≤ m then s.take m.toNat else s.take (s.length - (-m).toNat)

/-- Name-sanitizing pipeline of `generate_project_id`
(source `proyects/gcloud_projects_V1.py` lines 22-42): truncate at the first
hyphen, lowercase, space to hyphen, `&` to `and`, drop punctuation, drop all
characters outside `[a-z0-9-]`, then strip leading/trailing hyphens. -/
def sanitize (company_new_name : String) : List Char :=
  let truncated :=
    if company_new_name.data.contains '-' then
      company_new_name.data.takeWhile (fun c => c != '-')
    else company_new_name.data
  let p := truncated.map Char.toLower
  let p := pyReplace p ' ' ['-']
  let p := pyReplace p '&' ['a', 'n', 'd']
  let p := pyReplace p '(' []
  let p := pyReplace p ')' []
  let p := pyReplace p '.' []
  let p := pyReplace p ',' []
  let p := pyReplace p '\'' []
  let p := pyReplace p '"' []
  let p := p.filter allowedChar
  pyStrip p '-'

/-- Embedding of `generate_project_id(company_new_name, company_id)`
(source `proyects/gcloud_projects_V1.py` lines 14-53).  Returns `none` for a
falsy (empty) name; otherwise sanitizes the name, appends `-<company_id>`,
and if the result exceeds 30 characters re-truncates the prefix to
`30 - len(str(company_id)) - 1` characters (a Python slice, so a negative
bound counts from the end) and re-appends the id suffix. -/
def generate_project_id (company_new_name : String) (company_id : Nat) : Option String :=
  if company_new_name = "" then none
  else
    let digits := (Nat.repr company_id).data
    let withId := sanitize company_new_name ++ '-' :: digits
    if withId.length > 30 then
      let max_name_length : Int := 30 - (digits.length : Int) - 1
      some ⟨pySliceTo withId max_name_length ++ '-' :: digits⟩
    else
      some ⟨withId⟩

/-- One row of the `companies` source table. -/
structure CompanyRow where
  company_id : Nat
  company_name : String
  company_new_name : String
  company_project_id : Option String
deriving DecidableEq, Repr

/-- The command bundle built by `generate_gcp_commands`
(source `proyects/gcloud_projects_V1.py` lines 87-97). -/
structure Commands where
  company_id : Nat
  company_name : String
  company_new_name : String
  project_id : String
  create_project_cmd : String
  enable_apis_cmd : String
  create_datasets_cmds : List String
  create_service_account_cmd : String
  add_bigquery_admin_role_cmd : String
deriving DecidableEq, Repr

/-- Dataset names created per project (source line 78). -/
def datasetNames : List String :=
  ["settings", "fivetran", "bronze", "silver", "gold", "management"]

/-- Embedding of `generate_gcp_commands(row)`
(source `proyects/gcloud_projects_V1.py` lines 56-97).  Returns `none` when
no (truthy) project id can be derived. -/
def generate_gcp_commands (row : CompanyRow) : Option Commands :=
  match generate_project_id row.company_new_name row.company_id with
  | none => none
  | some project_id =>
    if project_id = "" then none
    else
      some {
        company_id := row.company_id
        company_name := row.company_name
        company_new_name := row.company_new_name
        project_id := project_id
        create_project_cmd :=
          "gcloud projects create " ++ project_id ++ " --name=\"" ++ row.company_new_name ++ "\""
        enable_apis_cmd :=
          "gcloud services enable bigquery.googleapis.com --project=" ++ project_id
        create_datasets_cmds :=
          datasetNames.map (fun d =>
            "bq mk --project_id=" ++ project_id ++ " --dataset --location=US " ++ d)
        create_service_account_cmd :=
          "gcloud iam service-accounts create fivetran-account-service --display-name=\"Fivetran Account Service\" --project=" ++ project_id
        add_bigquery_admin_role_cmd :=
          "gcloud projects add-iam-policy-binding " ++ project_id ++ " --member=serviceAccount:fivetran-account-service@" ++ project_id ++ ".iam.gserviceaccount.com --role=roles/bigquery.admin"
      }

/-- The command bundle built by `generate_delete_commands`
(source `proyects/gcloud_projects_V1.py` lines 100-124). -/
structure DeleteCommands where
  company_id : Nat
  company_name : String
  company_new_name : String
  project_id : String
  delete_project_cmd : String
deriving DecidableEq, Repr

/-- Embedding of `generate_delete_commands(row)`
(source `proyects/gcloud_projects_V1.py` lines 100-124). -/
def generate_delete_commands (row : CompanyRow) : Option DeleteCommands :=
  match generate_project_id row.company_new_name row.company_id with
  | none => none
  | some project_id =>
    if project_id = "" then none
    else
      some {
        company_id := row.company_id
        company_name := row.company_name
        company_new_name := row.company_new_name
        project_id := project_id
        delete_project_cmd := "gcloud projects delete " ++ project_id ++ " --quiet"
      }

/-- Reference to a BigQuery view: the `(projectId, datasetId, tableId)`
triple used both by the SDK `AccessEntry` and the REST `access` payload. -/
structure ViewRef where
  projectId : String
  datasetId : String
  tableId : String
deriving DecidableEq, Repr

/-- A dataset access entry: either an authorized-view entry or any other
kind of entry (role/user/group bindings), whose entity id is never equal to
a view reference. -/
inductive AccessEntry where
  | view (ref : ViewRef)
  | other (entity : String)
deriving DecidableEq, Repr

/-- The mutating calls the scripts can make against the target system:
spawning a shell command, the BigQuery UPDATE write-back of a resolved
project id, the SDK `update_dataset(..., ["access_entries"])` call, and the
REST `PATCH` of a dataset's `access` list.  Reads are not effects. -/
inductive Effect where
  | spawn (cmd : String)
  | bqUpdate (company_id : Nat) (project_id : String)
  | updateDataset (entries : List AccessEntry)
  | patchDataset (entries : List AccessEntry)
deriving DecidableEq, Repr

/-- Environment for shell execution: which spawned command would report
success (exit code 0). -/
structure Env where
  cmdOk : String → Bool

/-- Embedding of `execute_command(command, dry_run)`
(source `proyects/gcloud_projects_V1.py` lines 127-148): in dry-run mode it
only prints the command and returns `True`, spawning nothing; in real mode
it spawns the process and reports its success. -/
def execute_command (command : String) (dry_run : Bool) (env : Env) : Bool × List Effect :=
  if dry_run then (true, [])
  else (env.cmdOk command, [Effect.spawn command])

/-- Embedding of `update_company_project_in_bq(company_id, project_id)`
(source `proyects/gcloud_projects_V1.py` lines 151-171): one UPDATE query
against the `companies` table keyed by `company_id`. -/
def update_company_project_in_bq (company_id : Nat) (project_id : String) : List Effect :=
  [Effect.bqUpdate company_id project_id]

/-- The ten commands of one work item's provisioning sequence, in execution
order (source `proyects/gcloud_projects_V1.py` lines 185-209). -/
def commandList (cmds : Commands) : List String :=
  cmds.create_project_cmd :: cmds.enable_apis_cmd ::
    (cmds.create_datasets_cmds ++
      [cmds.create_service_account_cmd, cmds.add_bigquery_admin_role_cmd])

/-- One step of the command loop in `execute_project_creation`: run the
command, bump the success count when it succeeded, bump the total. -/
def epcStep (dry_run : Bool) (env : Env) (acc : Nat × Nat × List Effect) (cmd : String) :
    Nat × Nat × List Effect :=
  let r := execute_command cmd dry_run env
  (acc.1 + (if r.1 then 1 else 0), acc.2.1 + 1, acc.2.2 ++ r.2)

/-- Embedding of `execute_project_creation(commands, dry_run)`
(source `proyects/gcloud_projects_V1.py` lines 174-218): every command of the
sequence is attempted (no short-circuit), successes are tallied, and the
BigQuery write-back runs exactly when all commands succeeded and the mode is
real. -/
def execute_project_creation (cmds : Commands) (dry_run : Bool) (env : Env) :
    Bool × List Effect :=
  let res := (commandList cmds).foldl (epcStep dry_run env) (0, 0, [])
  let all_success := res.1 == res.2.1
  if all_success && !dry_run then
    (all_success, res.2.2 ++ update_company_project_in_bq cmds.company_id cmds.project_id)
  else
    (all_success, res.2.2)

/-- Embedding of `execute_project_deletion(commands, dry_run)`
(source `proyects/gcloud_projects_V1.py` lines 221-238): a single command. -/
def execute_project_deletion (cmds : DeleteCommands) (dry_run : Bool) (env : Env) :
    Bool × List Effect :=
  execute_command cmds.delete_project_cmd dry_run env

/-- A row as yielded by the BigQuery result iterator: `bad` models a row
whose attribute access raises inside the per-row `try` block. -/
inductive Row where
  | good (r : CompanyRow)
  | bad
deriving Repr

/-- The per-run counters printed in the final summary of the real execution
modes: `count` (processed rows), `successful`, `failed`. -/
structure Summary where
  count : Nat
  successful : Nat
  failed : Nat
deriving DecidableEq, Repr

/-- Command run by the `finally` block of both real modes
(source `proyects/gcloud_projects_V1.py` lines 438 and 613). -/
def resetProjectCmd : String := "gcloud config set project platform-partners-pro"

/-- One iteration of the per-row loop of `real_execution_mode`
(source `proyects/gcloud_projects_V1.py` lines 393-423): a raising row is
counted and marked failed; a row with a registered `company_project_id` is
skipped via `continue` (counted, but neither successful nor failed);
otherwise commands are generated and the creation sequence runs in real
mode. -/
def realStep (env : Env) (acc : Summary × List Effect) (row : Row) : Summary × List Effect :=
  match row with
  | .bad => ({ acc.1 with count := acc.1.count + 1, failed := acc.1.failed + 1 }, acc.2)
  | .good r =>
    let s1 := { acc.1 with count := acc.1.count + 1 }
    match r.company_project_id with
    | some _ => (s1, acc.2)
    | none =>
      match generate_gcp_commands r with
      | none => ({ s1 with failed := s1.failed + 1 }, acc.2)
      | some cmds =>
        let res := execute_project_creation cmds false env
        if res.1 then ({ s1 with successful := s1.successful + 1 }, acc.2 ++ res.2)
        else ({ s1 with failed := s1.failed + 1 }, acc.2 ++ res.2)

/-- The per-row loop of `real_execution_mode` over the query result. -/
def realLoop (rows : List Row) (env : Env) : Summary × List Effect :=
  rows.foldl (realStep env) (⟨0, 0, 0⟩, [])

/-- Embedding of `real_execution_mode()`
(source `proyects/gcloud_projects_V1.py` lines 345-438): any confirmation
other than the exact token `SI` returns before the `try` block, so nothing
runs; a failing companies query (`none`) processes no row; the `finally`
block always re-spawns `resetProjectCmd` once the `try` was entered. -/
def real_execution_mode (confirm : String) (queryRows : Option (List Row)) (env : Env) :
    Summary × List Effect :=
  if confirm ≠ "SI" then (⟨0, 0, 0⟩, [])
  else
    match queryRows with
    | none => (⟨0, 0, 0⟩, (execute_command resetProjectCmd false env).2)
    | some rows =>
      let res := realLoop rows env
      (res.1, res.2 ++ (execute_command resetProjectCmd false env).2)

/-- One iteration of the per-row loop of `delete_projects_real`
(source `proyects/gcloud_projects_V1.py` lines 578-598). -/
def deleteStep (env : Env) (acc : Summary × List Effect) (row : Row) : Summary × List Effect :=
  match row with
  | .bad => ({ acc.1 with count := acc.1.count + 1, failed := acc.1.failed + 1 }, acc.2)
  | .good r =>
    let s1 := { acc.1 with count := acc.1.count + 1 }
    match generate_delete_commands r with
    | none => ({ s1 with failed := s1.failed + 1 }, acc.2)
    | some cmds =>
      let res := execute_project_deletion cmds false env
      if res.1 then ({ s1 with successful := s1.successful + 1 }, acc.2 ++ res.2)
      else ({ s1 with failed := s1.failed + 1 }, acc.2 ++ res.2)

/-- Embedding of `delete_projects_real()`
(source `proyects/gcloud_projects_V1.py` lines 524-613): two exact
confirmation tokens (`ELIMINAR`, then `SI`) are required before the `try`
block; a mismatch at either prompt returns with nothing executed. -/
def delete_projects_real (confirm confirm2 : String) (queryRows : Option (List Row))
    (env : Env) : Summary × List Effect :=
  if confirm ≠ "ELIMINAR" then (⟨0, 0, 0⟩, [])
  else if confirm2 ≠ "SI" then (⟨0, 0, 0⟩, [])
  else
    match queryRows with
    | none => (⟨0, 0, 0⟩, (execute_command resetProjectCmd false env).2)
    | some rows =>
      let res := rows.foldl (deleteStep env) (⟨0, 0, 0⟩, [])
      (res.1, res.2 ++ (execute_command resetProjectCmd false env).2)

/-- Test used by `configure_authorized_view` to recognize an already
authorized view: the entry's `entity_id` equals the exact
`(projectId, datasetId, tableId)` dict (a non-view entry's entity id, a
string, never equals that dict). -/
def view_matches (ref : ViewRef) (e : AccessEntry) : Bool :=
  match e with
  | .view r => r == ref
  | .other _ => false

/-- Embedding of `AuthorizedViewManager.configure_authorized_view`
(source `iam/configure_authorized_views.py` lines 43-129).  The dataset is
given as `none` when `get_dataset` raises NotFound.  Membership is checked
first; an already-authorized view returns `True` untouched; dry-run returns
`True` before the `update_dataset` call; otherwise the entry is appended and
`update_dataset` is issued. -/
def configure_authorized_view (dry_run : Bool) (dataset : Option (List AccessEntry))
    (ref : ViewRef) : Bool × List Effect :=
  match dataset with
  | none => (false, [])
  | some entries =>
    if entries.any (view_matches ref) then (true, [])
    else if dry_run then (true, [])
    else (true, [Effect.updateDataset (entries ++ [AccessEntry.view ref])])

/-- Result values of `authorize_view_in_dataset_api`: Python `None` (no
token), `"SKIP"`, `True`, `False`. -/
inductive ApiResult where
  | noToken
  | skip
  | ok
  | err
deriving DecidableEq, Repr

/-- Embedding of `authorize_view_in_dataset_api`
(source `create_authorized_views_api.py` lines 145-219).  Inputs model the
reads: whether a token was obtained, the GET result (`none` for a non-200
status), and whether the PATCH would return 200.  Dry-run returns right
after printing the would-be requests; in real mode an already-present view
reference returns `"SKIP"` with no PATCH; otherwise the reference is
appended and the PATCH is issued. -/
def authorize_view_in_dataset_api (dry_run : Bool) (tokenOk : Bool)
    (getResult : Option (List AccessEntry)) (patchOk : Bool) (ref : ViewRef) :
    ApiResult × List Effect :=
  if !tokenOk then (.noToken, [])
  else if dry_run then (.ok, [])
  else
    match getResult with
    | none => (.err, [])
    | some access =>
      if access.any (view_matches ref) then (.skip, [])
      else
        ((if patchOk then ApiResult.ok else ApiResult.err),
          [Effect.patchDataset (access ++ [AccessEntry.view ref])])

/-- The `data-analytics` service-account email of a project
(source `iam/assign_call_table_permissions.py` line 168). -/
def data_analytics_email (central_project : String) : String :=
  "data-analytics@" ++ central_project ++ ".iam.gserviceaccount.com"

/-- Result of `assign_data_viewer_permission`: the `"SKIP"` marker or the
generated `bq add-iam-policy-binding` command string. -/
inductive AssignResult where
  | skip
  | cmd (c : String)
deriving DecidableEq, Repr

/-- Embedding of `assign_data_viewer_permission(project_id, dataset_id,
table_id, central_project, dry_run)`
(source `iam/assign_call_table_permissions.py` lines 163-190).
`permission_exists` models the `check_permission_exists` read, consulted
only in real mode.  The returned command is the literal f-string of line
181, whose `--member` is the hardcoded view reference. -/
def assign_data_viewer_permission (project_id dataset_id table_id central_project : String)
    (permission_exists dry_run : Bool) : AssignResult :=
  if !dry_run && permission_exists then .skip
  else
    .cmd ("bq add-iam-policy-binding --project_id=" ++ project_id ++
      " --member=VIEW:platform-partners-des.silver.vw_consolidated_call --role=roles/bigquery.dataViewer " ++
      project_id ++ ":" ++ dataset_id ++ "." ++ table_id)

/-- A `bq add-iam-policy-binding` command with an explicit `--member`
argument slot, used to state which member the generated command binds. -/
def bqAddIamCmd (project_id dataset_id table_id member : String) : String :=
  "bq add-iam-policy-binding --project_id=" ++ project_id ++
    (" --member=" ++ member ++ " --role=roles/bigquery.dataViewer ") ++
    project_id ++ ":" ++ dataset_id ++ "." ++ table_id

/-- The fixed view reference hardcoded as the `--member` value
(source `iam/assign_call_table_permissions.py` line 181). -/
def consolidatedViewMember : String :=
  "VIEW:platform-partners-des.silver.vw_consolidated_call"

/-- Whether the per-row loop of `real_execution_mode` skips a row via
`continue` because a project id is already registered (source line 402). -/
def rowSkipped : Row → Bool
  | .good r => r.company_project_id.isSome
  | .bad => false

/-- Number of rows of a run skipped for an already-registered project id. -/
def skippedCount (rows : List Row) : Nat :=
  rows.countP rowSkipped

/-- Recognizes the BigQuery write-back effect among the effects of a run. -/
def isBqUpdate : Effect → Bool
  | .bqUpdate _ _ => true
  | _ => false

/-- The write-back effects contained in an effect trace. -/
def updatesOf (l : List Effect) : List Effect :=
  l.filter isBqUpdate

/-- Environment in which every spawned command succeeds. -/
def envAll : Env := ⟨fun _ => true⟩

/-- A concrete command bundle used to instantiate theorems. -/
def sampleCommands : Commands :=
  { company_id := 7
    company_name := "Acme Co"
    company_new_name := "Acme-West"
    project_id := "acme-7"
    create_project_cmd := "c1"
    enable_apis_cmd := "c2"
    create_datasets_cmds := ["c3", "c4"]
    create_service_account_cmd := "c5"
    add_bigquery_admin_role_cmd := "c6" }

/-- A concrete view reference used to instantiate theorems. -/
def sampleRef : ViewRef :=
  { projectId := "shape-mhs-1", datasetId := "silver", tableId := "vw_mi_vista" }

/-- The per-Action counters of one work item's provisioning sequence, as
printed by `execute_project_creation`'s summary line
(source `proyects/gcloud_projects_V1.py` lines 182-212): `success_count`
and `total_commands`. -/
def epcCounts (cmds : Commands) (dry_run : Bool) (env : Env) : Nat × Nat :=
  let res := (commandList cmds).foldl (epcStep dry_run env) (0, 0, [])
  (res.1, res.2.1)

/-- Folding the command loop of `execute_project_creation` in dry-run mode:
every command counts as a success and the effect trace is untouched. -/
theorem epc_fold_dry (l : List String) (env : Env) :
    ∀ (s t : Nat) (e : List Effect),
      l.foldl (epcStep true env) (s, t, e) = (s + l.length, t + l.length, e) := by
  induction l with
  | nil => intro s t e; simp
  | cons c l ih =>
    intro s t e
    simp only [List.foldl_cons, epcStep, execute_command, if_pos]
    rw [ih]
    simp only [List.length_cons, List.append_nil, Prod.mk.injEq]
    refine ⟨by omega, by omega, trivial⟩

/-- Folding the command loop of `execute_project_creation` in real mode:
the success count grows by the number of commands the environment accepts,
the total by the list length, and one spawn effect is appended per
command. -/
theorem epc_fold_real (l : List String) (env : Env) :
    ∀ (s t : Nat) (e : List Effect),
      l.foldl (epcStep false env) (s, t, e) =
        (s + l.countP (fun c => env.cmdOk c), t + l.length, e ++ l.map Effect.spawn) := by
  induction l with
  | nil => intro s t e; simp
  | cons c l ih =>
    intro s t e
    simp only [List.foldl_cons, epcStep, execute_command, if_neg, List.countP_cons,
      List.length_cons, List.map_cons]
    rw [ih]
    refine Prod.ext ?_ (Prod.ext ?_ ?_)
    · simp only []
      by_cases h : env.cmdOk c = true <;> simp [h] <;> omega
    · simp; omega
    · simp

/-- The characterization of `execute_project_creation` in real mode: it
succeeds exactly when every command of the sequence succeeds, spawns every
command in order, and appends the single write-back exactly on full
success. -/
theorem epc_real (cmds : Commands) (env : Env) :
    execute_project_creation cmds false env =
      ((commandList cmds).all (fun c => env.cmdOk c),
        (commandList cmds).map Effect.spawn ++
          (if (commandList cmds).all (fun c => env.cmdOk c) = true then
            [Effect.bqUpdate cmds.company_id cmds.project_id] else [])) := by
  unfold execute_project_creation
  rw [epc_fold_real]
  simp only [Nat.zero_add, List.nil_append, update_company_project_in_bq]
  have hiff : ((commandList cmds).countP (fun c => env.cmdOk c) == (commandList cmds).length) =
      (commandList cmds).all (fun c => env.cmdOk c) := by
    apply Bool.eq_iff_iff.mpr
    rw [beq_iff_eq, List.countP_eq_length, List.all_eq_true]
  simp only [hiff]
  by_cases h : (commandList cmds).all (fun c => env.cmdOk c) = true
  · simp [h]
  · simp [h]

/-- Dry-run `execute_project_creation` reports success and emits nothing. -/
theorem epc_dry (cmds : Commands) (env : Env) :
    execute_project_creation cmds true env = (true, []) := by
  unfold execute_project_creation
  rw [epc_fold_dry]
  simp

/-- No spawn effect is a write-back. -/
theorem updatesOf_spawn_map (l : List String) :
    updatesOf (l.map Effect.spawn) = [] := by
  induction l with
  | nil => rfl
  | cons c l ih => simpa [updatesOf, isBqUpdate, List.filter_cons] using ih

/-- One iteration of the creation loop always increments the processed
count, and sends the row to exactly one of the successful, failed or
skipped tallies. -/
theorem realStep_spec (env : Env) (acc : Summary × List Effect) (row : Row) :
    (realStep env acc row).1.count = acc.1.count + 1 ∧
    (realStep env acc row).1.successful + (realStep env acc row).1.failed +
      (if rowSkipped row then 1 else 0) = acc.1.successful + acc.1.failed + 1 := by
  cases row with
  | bad => simp [realStep, rowSkipped]; omega
  | good r =>
    cases hp : r.company_project_id with
    | some pid => simp [realStep, rowSkipped, hp]
    | none =>
      cases hg : generate_gcp_commands r with
      | none => simp [realStep, rowSkipped, hp, hg]; omega
      | some cmds =>
        by_cases hr : (execute_project_creation cmds false env).1 = true <;>
          simp [realStep, rowSkipped, hp, hg, hr] <;> omega

/-- Folding the per-row creation loop from any accumulator: the processed
count grows by the number of rows, and successful + failed + skipped grows
by the number of rows as well. -/
theorem realLoop_fold (env : Env) (rows : List Row) :
    ∀ (acc : Summary × List Effect),
      (rows.foldl (realStep env) acc).1.count = acc.1.count + rows.length ∧
      (rows.foldl (realStep env) acc).1.successful +
        (rows.foldl (realStep env) acc).1.failed + skippedCount rows =
          acc.1.successful + acc.1.failed + rows.length := by
  induction rows with
  | nil => intro acc; simp [skippedCount]
  | cons row l ih =>
    intro acc
    rcases realStep_spec env acc row with ⟨h1, h2⟩
    rcases ih (realStep env acc row) with ⟨h3, h4⟩
    simp only [List.foldl_cons, skippedCount, List.countP_cons, List.length_cons] at *
    by_cases hk : rowSkipped row = true <;> simp [hk] at h2 ⊢ <;> omega

/-- C1.  In dry-run mode nothing mutates the target system: `execute_command`
returns `True` with no spawned process; a dry `execute_project_creation`
emits no effect at all (no spawns, no write-back); the dry-run branches of
`configure_authorized_view` and `authorize_view_in_dataset_api` return
before any `update_dataset` / PATCH call, for every input. -/
theorem dry_run_never_mutates (cmd : String) (env : Env) (cmds : Commands)
    (dataset : Option (List AccessEntry)) (ref : ViewRef) (tokenOk : Bool)
    (getResult : Option (List AccessEntry)) (patchOk : Bool) :
    execute_command cmd true env = (true, []) ∧
    (execute_project_creation cmds true env).2 = [] ∧
    (configure_authorized_view true dataset ref).2 = [] ∧
    (authorize_view_in_dataset_api true tokenOk getResult patchOk ref).2 = [] := by
  refine ⟨rfl, ?_, ?_, ?_⟩
  · rw [epc_dry]
  · cases dataset with
    | none => rfl
    | some entries =>
      by_cases h : entries.any (view_matches ref) = true <;>
        simp [configure_authorized_view, h]
  · cases tokenOk <;> simp [authorize_view_in_dataset_api]

/-- C2.  Re-running the add-authorized-view action in real mode against a
dataset that already contains the exact view reference is idempotent: the
SDK path returns `True` and issues no `update_dataset` call, and the REST
path returns `"SKIP"` and issues no PATCH, so no duplicate access entry can
arise and no error is reported. -/
theorem authorized_view_add_idempotent (entries access : List AccessEntry)
    (ref : ViewRef) (patchOk : Bool) :
    (AccessEntry.view ref ∈ entries →
      configure_authorized_view false (some entries) ref = (true, [])) ∧
    (AccessEntry.view ref ∈ access →
      authorize_view_in_dataset_api false true (some access) patchOk ref =
        (ApiResult.skip, [])) := by
  constructor
  · intro hmem
    have hany : entries.any (view_matches ref) = true :=
      List.any_eq_true.mpr ⟨AccessEntry.view ref, hmem, by simp [view_matches]⟩
    simp [configure_authorized_view, hany]
  · intro hmem
    have hany : access.any (view_matches ref) = true :=
      List.any_eq_true.mpr ⟨AccessEntry.view ref, hmem, by simp [view_matches]⟩
    simp [authorize_view_in_dataset_api, hany]

/-- Witness for C2 at the concrete reference of the script's usage example:
a dataset whose access list already holds the triple. -/
theorem authorized_view_add_idempotent_witness :
    (AccessEntry.view sampleRef ∈ [AccessEntry.view sampleRef, AccessEntry.other "ownerEmail"] ∧
      configure_authorized_view false
        (some [AccessEntry.view sampleRef, AccessEntry.other "ownerEmail"]) sampleRef =
        (true, [])) ∧
    (AccessEntry.view sampleRef ∈ [AccessEntry.view sampleRef] ∧
      authorize_view_in_dataset_api false true (some [AccessEntry.view sampleRef]) true
        sampleRef = (ApiResult.skip, [])) :=
  ⟨⟨by decide,
    (authorized_view_add_idempotent
      [AccessEntry.view sampleRef, AccessEntry.other "ownerEmail"]
      [AccessEntry.view sampleRef] sampleRef true).1 (by decide)⟩,
   ⟨by decide,
    (authorized_view_add_idempotent
      [AccessEntry.view sampleRef, AccessEntry.other "ownerEmail"]
      [AccessEntry.view sampleRef] sampleRef true).2 (by decide)⟩⟩

/-- C6.  Any confirmation other than the exact token returns before the
processing block: `real_execution_mode` demands `SI`, and
`delete_projects_real` demands `ELIMINAR` and then `SI`; a mismatch at
either prompt yields an empty summary and an empty effect trace — zero
actions executed. -/
theorem confirmation_gates_execution (confirm confirm1 confirm2 : String)
    (queryRows : Option (List Row)) (env : Env)
    (hc : confirm ≠ "SI") (hd : confirm1 ≠ "ELIMINAR" ∨ confirm2 ≠ "SI") :
    real_execution_mode confirm queryRows env = (⟨0, 0, 0⟩, []) ∧
    delete_projects_real confirm1 confirm2 queryRows env = (⟨0, 0, 0⟩, []) := by
  constructor
  · simp [real_execution_mode, hc]
  · by_cases h1 : confirm1 = "ELIMINAR"
    · have h2 : confirm2 ≠ "SI" := hd.resolve_left (by simp [h1])
      simp [delete_projects_real, h1, h2]
    · simp [delete_projects_real, h1]

/-- Witness for C6: the answers `yes` and `no` (instead of `SI` and
`ELIMINAR`) abort both modes with zero executed actions. -/
theorem confirmation_gates_execution_witness :
    (("yes" : String) ≠ "SI" ∧ (("no" : String) ≠ "ELIMINAR" ∨ ("yes" : String) ≠ "SI")) ∧
    real_execution_mode "yes" (some [Row.good ⟨7, "Acme Co", "Acme-West", none⟩]) envAll =
      (⟨0, 0, 0⟩, []) ∧
    delete_projects_real "no" "yes" (some [Row.good ⟨7, "Acme Co", "Acme-West", none⟩]) envAll =
      (⟨0, 0, 0⟩, []) :=
  ⟨⟨by decide, Or.inl (by decide)⟩,
    (confirmation_gates_execution "yes" "no" "yes"
      (some [Row.good ⟨7, "Acme Co", "Acme-West", none⟩]) envAll
      (by decide) (Or.inl (by decide))).1,
    (confirmation_gates_execution "yes" "no" "yes"
      (some [Row.good ⟨7, "Acme Co", "Acme-West", none⟩]) envAll
      (by decide) (Or.inl (by decide))).2⟩

/-- C7.  The write-back of the resolved project id (`bqUpdate`, keyed by the
work item's `company_id`) is emitted exactly once by a real-mode
`execute_project_creation` whose ten commands all succeeded, and never
otherwise: dry-run emits none, and a run with any failed command emits
none. -/
theorem write_back_exactly_once_on_success (cmds : Commands) (env : Env) :
    updatesOf (execute_project_creation cmds true env).2 = [] ∧
    ((∀ c ∈ commandList cmds, env.cmdOk c = true) →
      updatesOf (execute_project_creation cmds false env).2 =
        [Effect.bqUpdate cmds.company_id cmds.project_id]) ∧
    ((¬ ∀ c ∈ commandList cmds, env.cmdOk c = true) →
      updatesOf (execute_project_creation cmds false env).2 = []) := by
  refine ⟨?_, ?_, ?_⟩
  · simp [epc_dry, updatesOf]
  · intro hall
    have h : (commandList cmds).all (fun c => env.cmdOk c) = true :=
      List.all_eq_true.mpr hall
    rw [epc_real]
    simp [h, updatesOf, List.filter_append, updatesOf_spawn_map, isBqUpdate]
  · intro hall
    have h : (commandList cmds).all (fun c => env.cmdOk c) = false := by
      rcases hx : (commandList cmds).all (fun c => env.cmdOk c) with _ | _
      · rfl
      · exact absurd (List.all_eq_true.mp hx) hall
    rw [epc_real]
    simp [h, updatesOf, List.filter_append, updatesOf_spawn_map, isBqUpdate]

/-- Witness for C7: with every command succeeding, the sample bundle's real
run writes back exactly once, keyed by company id 7. -/
theorem write_back_exactly_once_on_success_witness :
    (∀ c ∈ commandList sampleCommands, envAll.cmdOk c = true) ∧
    updatesOf (execute_project_creation sampleCommands false envAll).2 =
      [Effect.bqUpdate 7 "acme-7"] :=
  ⟨fun _ _ => rfl,
    (write_back_exactly_once_on_success sampleCommands envAll).2.1 (fun _ _ => rfl)⟩

/-- C3.  `generate_project_id` is a pure function, so re-deriving from the
same input always yields the same string; on the work item with id 7 and
new name `Acme-West` it derives `acme-7` (truncate at the first hyphen,
lowercase, append the numeric id). -/
theorem generate_project_id_deterministic (company_new_name : String) (company_id : Nat) :
    generate_project_id company_new_name company_id =
      generate_project_id company_new_name company_id ∧
    generate_project_id "Acme-West" 7 = some "acme-7" :=
  ⟨rfl, by decide⟩

/-- C5 counterexample.  A display name made only of stripped characters is
not rejected: `generate_project_id` returns the identifier `-7` (not
`None`), and `generate_gcp_commands` happily builds commands for it, so the
claimed generation failure does not occur. -/
theorem empty_after_strip_not_rejected :
    generate_project_id "###" 7 = some "-7" ∧
    generate_gcp_commands ⟨7, "Acme Co", "###", none⟩ ≠ none := by
  constructor
  · decide
  · decide

/-- C5 amended.  Only an empty display name makes generation fail
(`generate_project_id` and `generate_gcp_commands` return `None`, and the
item is tallied as failed); a non-empty name whose sanitized form is empty
is not rejected — it yields the identifier `-<company_id>`. -/
theorem empty_name_rejected (name : String) (id : Nat) (row : CompanyRow)
    (hname : name ≠ "") (hsan : sanitize name = [])
    (hdig : (Nat.repr id).length ≤ 29) :
    generate_project_id "" id = none ∧
    (row.company_new_name = "" → generate_gcp_commands row = none) ∧
    generate_project_id name id = some ⟨'-' :: (Nat.repr id).data⟩ := by
  refine ⟨rfl, ?_, ?_⟩
  · intro h
    simp [generate_gcp_commands, h, generate_project_id]
  · have hd : (Nat.repr id).data.length ≤ 29 := hdig
    simp only [generate_project_id, if_neg hname, hsan, List.nil_append]
    rw [if_neg (by simp [List.length_cons]; omega)]

/-- Witness for C5 amended, at the empty name, the name `###` (which
sanitizes to nothing) and id 7. -/
theorem empty_name_rejected_witness :
    (("###" : String) ≠ "" ∧ sanitize "###" = [] ∧ (Nat.repr 7).length ≤ 29) ∧
    generate_project_id "" 7 = none ∧
    generate_gcp_commands ⟨7, "Acme Co", "", none⟩ = none ∧
    generate_project_id "###" 7 = some ⟨'-' :: (Nat.repr 7).data⟩ :=
  ⟨⟨by decide, by decide, by decide⟩,
    (empty_name_rejected "###" 7 ⟨7, "Acme Co", "", none⟩ (by decide) (by decide) (by decide)).1,
    (empty_name_rejected "###" 7 ⟨7, "Acme Co", "", none⟩ (by decide) (by decide) (by decide)).2.1 rfl,
    (empty_name_rejected "###" 7 ⟨7, "Acme Co", "", none⟩ (by decide) (by decide) (by decide)).2.2⟩

/-- C8 counterexample.  A run whose single row already has a registered
project id is skipped via `continue`: the final summary counts it as
processed but in neither the successful nor the failed tally, so
`successful + failed` does not equal the processed total. -/
theorem run_summary_counterexample :
    (real_execution_mode "SI" (some [Row.good ⟨1, "Acme Co", "Acme-West", some "acme-1"⟩])
        envAll).1.successful +
      (real_execution_mode "SI" (some [Row.good ⟨1, "Acme Co", "Acme-West", some "acme-1"⟩])
        envAll).1.failed ≠
      (real_execution_mode "SI" (some [Row.good ⟨1, "Acme Co", "Acme-West", some "acme-1"⟩])
        envAll).1.count := by
  decide

/-- C8 amended.  Action level: a real-mode `execute_project_creation`
attempts every command of the item's sequence, and succeeded commands plus
skipped commands (zero — this executor has no per-Action skip) plus failed
commands equals the total Actions attempted
(`success_count + 0 + failures = total_commands`).  Item level: every
processed row lands in exactly one of the successful, failed, or
skipped-for-existing-project-id buckets, so the summary satisfies
`count = length rows` and `successful + failed + skipped = count`;
`successful + failed` equals the processed total only net of the rows
skipped via `continue`, which the printed summary does not tally
separately. -/
theorem run_summary_accounts_all_rows (cmds : Commands) (rows : List Row) (env : Env) :
    ((epcCounts cmds false env).1 + 0 +
        (commandList cmds).countP (fun c => !env.cmdOk c) =
          (epcCounts cmds false env).2 ∧
      (epcCounts cmds false env).2 = (commandList cmds).length) ∧
    ((real_execution_mode "SI" (some rows) env).1.count = rows.length ∧
      (real_execution_mode "SI" (some rows) env).1.successful +
        (real_execution_mode "SI" (some rows) env).1.failed + skippedCount rows =
        (real_execution_mode "SI" (some rows) env).1.count) := by
  constructor
  · unfold epcCounts
    rw [epc_fold_real]
    simp only [Nat.zero_add, Nat.add_zero]
    refine ⟨?_, trivial⟩
    rw [List.length_eq_countP_add_countP (fun c => env.cmdOk c)]
    congr 1
    apply List.countP_congr
    intro a ha
    simp
  · have hmode : (real_execution_mode "SI" (some rows) env).1 = (realLoop rows env).1 := by
      simp [real_execution_mode]
    rcases realLoop_fold env rows (⟨0, 0, 0⟩, []) with ⟨h1, h2⟩
    rw [hmode]
    unfold realLoop
    constructor
    · simpa using h1
    · rw [h1]; simpa using h2

/-- C9.  Per-item failures are isolated: whatever the environment does to
each spawned command and however many rows raise (`Row.bad`), the loop
still processes every row of the query result (the processed count equals
the number of rows, each recorded in the tally); only a failure of the
companies query itself (`none`) aborts the run with nothing processed. -/
theorem failures_do_not_abort_run (rows : List Row) (env : Env) :
    (real_execution_mode "SI" (some rows) env).1.count = rows.length ∧
    (real_execution_mode "SI" none env).1 = ⟨0, 0, 0⟩ := by
  constructor
  · have hmode : (real_execution_mode "SI" (some rows) env).1 = (realLoop rows env).1 := by
      simp [real_execution_mode]
    rw [hmode]
    unfold realLoop
    simpa using (realLoop_fold env rows (⟨0, 0, 0⟩, [])).1
  · simp [real_execution_mode]

/-- C4 counterexample.  The 30-character bound fails for a numeric id whose
decimal form has 30 or more digits: the Python slice bound
`30 - len(str(company_id)) - 1` goes negative and cuts from the end
instead, so the name `a` with id `10^30` yields a 63-character identifier. -/
theorem id_length_bound_counterexample :
    ¬ ∀ (company_new_name : String) (company_id : Nat) (s : String),
        generate_project_id company_new_name company_id = some s → s.length ≤ 30 := by
  intro h
  have heval :
      ((generate_project_id "a" 1000000000000000000000000000000).getD "").length = 63 := by
    decide
  cases heq : generate_project_id "a" 1000000000000000000000000000000 with
  | none => rw [heq] at heval; simp at heval
  | some s =>
    have hs := h "a" 1000000000000000000000000000000 s heq
    rw [heq] at heval
    simp [Option.getD] at heval
    omega

/-- C4 amended.  Every generated identifier ends with the suffix
`-<company_id>` (so the numeric id is recoverable), and whenever the id's
decimal form has at most 29 digits — in particular for every INT64 id, the
type the source table declares — the identifier's length is at most 30. -/
theorem id_suffix_and_bounded_length (company_new_name : String) (company_id : Nat)
    (s : String) (hgen : generate_project_id company_new_name company_id = some s) :
    List.IsSuffix ('-' :: (Nat.repr company_id).data) s.data ∧
    ((Nat.repr company_id).length ≤ 29 → s.length ≤ 30) := by
  by_cases hname : company_new_name = ""
  · simp [generate_project_id, hname] at hgen
  · simp only [generate_project_id, if_neg hname] at hgen
    by_cases hlen :
        (sanitize company_new_name ++ '-' :: (Nat.repr company_id).data).length > 30
    · rw [if_pos hlen] at hgen
      have hs := Option.some.inj hgen
      subst hs
      constructor
      · exact ⟨_, rfl⟩
      · intro hdig
        have hd : (Nat.repr company_id).data.length ≤ 29 := hdig
        have hm : (0 : Int) ≤ 30 - ((Nat.repr company_id).data.length : Int) - 1 := by omega
        show (pySliceTo _ _ ++ '-' :: (Nat.repr company_id).data).length ≤ 30
        unfold pySliceTo
        rw [if_pos hm]
        simp only [List.length_append, List.length_take, List.length_cons]
        omega
    · rw [if_neg hlen] at hgen
      have hs := Option.some.inj hgen
      subst hs
      refine ⟨⟨_, rfl⟩, fun _ => ?_⟩
      show (sanitize company_new_name ++ '-' :: (Nat.repr company_id).data).length ≤ 30
      omega

/-- Witness for C4 amended, at the scenario work item (`Acme-West`, id 7):
the identifier `acme-7` carries the `-7` suffix and fits in 30 chars. -/
theorem id_suffix_and_bounded_length_witness :
    (generate_project_id "Acme-West" 7 = some "acme-7" ∧ (Nat.repr 7).length ≤ 29) ∧
    List.IsSuffix ('-' :: (Nat.repr 7).data) ("acme-7" : String).data ∧
    ("acme-7" : String).length ≤ 30 :=
  ⟨⟨by decide, by decide⟩,
    (id_suffix_and_bounded_length "Acme-West" 7 "acme-7" (by decide)).1,
    (id_suffix_and_bounded_length "Acme-West" 7 "acme-7" (by decide)).2 (by decide)⟩

set_option maxRecDepth 8000 in
/-- C10.  Whenever `assign_data_viewer_permission` returns a command, that
command is a `bq add-iam-policy-binding` whose `--member` slot holds the
fixed view reference `VIEW:platform-partners-des.silver.vw_consolidated_call`
— which is not the `data-analytics` service-account member of any central
project, in particular not the one whose existence the function verifies. -/
theorem member_is_view_reference (project_id dataset_id table_id central_project : String)
    (permission_exists dry_run : Bool) (c : String)
    (h : assign_data_viewer_permission project_id dataset_id table_id central_project
      permission_exists dry_run = AssignResult.cmd c) :
    c = bqAddIamCmd project_id dataset_id table_id consolidatedViewMember ∧
    ∀ cp, consolidatedViewMember ≠ "serviceAccount:" ++ data_analytics_email cp := by
  constructor
  · unfold assign_data_viewer_permission at h
    by_cases hb : (!dry_run && permission_exists) = true
    · rw [if_pos hb] at h
      exact absurd h (by simp)
    · rw [if_neg hb] at h
      injection h with hc
      rw [← hc]
      rfl
  · intro cp hne
    have hdata := congrArg String.data hne
    rw [String.data_append] at hdata
    have h1 : consolidatedViewMember.data =
        'V' :: ("IEW:platform-partners-des.silver.vw_consolidated_call" : String).data := rfl
    have h2 : ("serviceAccount:" : String).data = 's' :: ("erviceAccount:" : String).data := rfl
    rw [h1, h2] at hdata
    simp at hdata

set_option maxRecDepth 8000 in
/-- Witness for C10 at a concrete call-table target: the returned command
binds the view reference, not the central project's service account. -/
theorem member_is_view_reference_witness :
    assign_data_viewer_permission "acme-7" "servicetitan_acme_7" "call"
        "platform-partners-des" false false =
      AssignResult.cmd (bqAddIamCmd "acme-7" "servicetitan_acme_7" "call"
        consolidatedViewMember) ∧
    consolidatedViewMember ≠ "serviceAccount:" ++ data_analytics_email "platform-partners-des" :=
  ⟨by decide,
    (member_is_view_reference "acme-7" "servicetitan_acme_7" "call" "platform-partners-des"
      false false (bqAddIamCmd "acme-7" "servicetitan_acme_7" "call" consolidatedViewMember)
      (by decide)).2 "platform-partners-des"⟩

end GP
